import Mathlib

set_option linter.unusedVariables false

namespace ArmosCleaning

/-!
Shallow embedding of the armos_cleaning batch synchronization and
reconciliation engine: the quantity transformer
(copy_order_details.calculate_quantities and
copy_order_details_optimized.calculate_quantities_optimized), the upsert
writers (copy_order_data_upsert, copy_order_data), the identity resolver
(copy_april_fixed), the reconciliation service
(services/data_comparison_service) and the payload assembler
(create_order_clean_payload.build_json_payload).

Python exceptions are modelled with Except; SQL NULL with Option; Python
truthiness with explicit predicates.  Numeric database values are modelled
as Int (the claims under study only depend on null-coalescing and
multiplication, never on fractional rounding).
-/

/-- Python exception raised inside a try block of the transformer. -/
inductive PyErr where
  | typeError
deriving DecidableEq, Repr

/-- Python truthiness of an optional string: None and the empty string are falsy. -/
def pyTruthyStr : Option String → Bool
  | none => false
  | some s => !(s == "")

/-- Python truthiness of an optional integer: None and 0 are falsy. -/
def pyTruthyInt : Option Int → Bool
  | none => false
  | some v => !(v == 0)

/-- Models uom.upper() character by character; in the source it is only
evaluated when the value is truthy. -/
def pyUpper (u : Option String) : String :=
  ⟨(u.getD "").data.map Char.toUpper⟩

/-- Models the Python expression qty * v where v is a nullable column value:
multiplying by None raises TypeError. -/
def pyMulOpt (qty : Int) (v : Option Int) : Except PyErr Int :=
  match v with
  | some n => Except.ok (qty * n)
  | none => Except.error PyErr.typeError

/-- One row of outbound_conversions as returned by get_conversion_data
(copy_order_details.py): numerator and denominator are nullable columns. -/
structure ConversionData where
  numerator : Option Int
  denominator : Option Int
deriving DecidableEq, Repr

/-- Body of the try block of calculate_quantities (copy_order_details.py,
lines 175-208). total_ctn is computed after the conversion multiply, so a
TypeError from a null numerator escapes before it is assigned. -/
def calculate_quantities_body (qty : Int) (uom : Option String)
    (conversion_data : Option ConversionData) : Except PyErr (Int × Int × Option Int) :=
  if pyTruthyStr uom && !(pyUpper uom == "PCS") then
    match conversion_data with
    | some cd =>
      match pyMulOpt qty cd.numerator with
      | Except.error e => Except.error e
      | Except.ok quantity_faktur =>
        match pyMulOpt qty cd.numerator with
        | Except.error e => Except.error e
        | Except.ok total_pcs =>
          Except.ok (quantity_faktur, total_pcs,
            if pyTruthyStr uom && (pyUpper uom == "CTN") then some qty else none)
    | none =>
      Except.ok (qty, qty,
        if pyTruthyStr uom && (pyUpper uom == "CTN") then some qty else none)
  else
    Except.ok (qty, qty,
      if pyTruthyStr uom && (pyUpper uom == "CTN") then some qty else none)

/-- calculate_quantities (copy_order_details.py): the catch-all except block
returns (qty, qty, None) when the body raises. -/
def calculate_quantities (qty : Int) (uom : Option String)
    (conversion_data : Option ConversionData) : Int × Int × Option Int :=
  match calculate_quantities_body qty uom conversion_data with
  | Except.ok r => r
  | Except.error _ => (qty, qty, none)

/-- calculate_quantities seen from the caller with the exception channel kept
explicit: because of the catch-all handler the function never propagates an
exception, so this is always ok. -/
def calculate_quantities_exc (qty : Int) (uom : Option String)
    (conversion_data : Option ConversionData) : Except PyErr (Int × Int × Option Int) :=
  match calculate_quantities_body qty uom conversion_data with
  | Except.ok r => Except.ok r
  | Except.error _ => Except.ok (qty, qty, none)

/-- Body of the try block of calculate_quantities_optimized
(copy_order_details_optimized.py, lines 118-149): the conversion is only
applied when numerator and denominator are both truthy. -/
def calculate_quantities_optimized_body (qty : Int) (uom : Option String)
    (numerator denominator : Option Int) : Except PyErr (Int × Int × Int) :=
  if pyTruthyStr uom && !(pyUpper uom == "PCS") then
    if pyTruthyInt numerator && pyTruthyInt denominator then
      match pyMulOpt qty numerator with
      | Except.error e => Except.error e
      | Except.ok quantity_faktur =>
        match pyMulOpt qty numerator with
        | Except.error e => Except.error e
        | Except.ok total_pcs =>
          Except.ok (quantity_faktur, total_pcs,
            if pyTruthyStr uom && (pyUpper uom == "CTN") then qty else 0)
    else
      Except.ok (qty, qty,
        if pyTruthyStr uom && (pyUpper uom == "CTN") then qty else 0)
  else
    Except.ok (qty, qty,
      if pyTruthyStr uom && (pyUpper uom == "CTN") then qty else 0)

/-- calculate_quantities_optimized: the except block returns (qty, qty, 0). -/
def calculate_quantities_optimized (qty : Int) (uom : Option String)
    (numerator denominator : Option Int) : Int × Int × Int :=
  match calculate_quantities_optimized_body qty uom numerator denominator with
  | Except.ok r => r
  | Except.error _ => (qty, qty, 0)

/-- calculate_quantities_optimized with the exception channel kept explicit. -/
def calculate_quantities_optimized_exc (qty : Int) (uom : Option String)
    (numerator denominator : Option Int) : Except PyErr (Int × Int × Int) :=
  match calculate_quantities_optimized_body qty uom numerator denominator with
  | Except.ok r => Except.ok r
  | Except.error _ => Except.ok (qty, qty, 0)

/-!
Upsert writer model.  A target table is modelled as a function from the
declared conflict-key value to the stored row (None when no row carries that
key), and executemany with an ON CONFLICT clause as a left fold of the
single-row upsert over the batch, which matches psycopg2's executemany
(one INSERT statement per row, all inside one transaction).
-/

/-- Generic single-row "INSERT ... ON CONFLICT" against a keyed table:
if a row with the incoming row's key exists it is replaced by
merge old incoming, otherwise the incoming row is inserted. -/
def upsertRow {κ ρ : Type} [DecidableEq κ] (key : ρ → κ) (merge : ρ → ρ → ρ)
    (db : κ → Option ρ) (r : ρ) : κ → Option ρ :=
  fun k =>
    if k = key r then
      some (match db (key r) with
            | some old => merge old r
            | none => r)
    else db k

/-- Generic batched write: executemany of the upsert over the batch, in order. -/
def applyBatch {κ ρ : Type} [DecidableEq κ] (key : ρ → κ) (merge : ρ → ρ → ρ)
    (db : κ → Option ρ) (batch : List ρ) : κ → Option ρ :=
  batch.foldl (upsertRow key merge) db

/-- One row of the order SELECT / order_main INSERT column list
(copy_order_data_upsert.py): 35 columns, all nullable in the model. -/
structure OrderRow where
  faktur_id : Option String := none
  faktur_date : Option Int := none
  delivery_date : Option Int := none
  do_number : Option String := none
  status : Option String := none
  skip_count : Option Int := none
  created_date : Option Int := none
  created_by : Option String := none
  updated_date : Option Int := none
  updated_by : Option String := none
  notes : Option String := none
  customer_id : Option String := none
  warehouse_id : Option String := none
  delivery_type_id : Option String := none
  order_integration_id : Option String := none
  origin_name : Option String := none
  origin_address_1 : Option String := none
  origin_address_2 : Option String := none
  origin_city : Option String := none
  origin_zipcode : Option String := none
  origin_phone : Option String := none
  origin_email : Option String := none
  destination_name : Option String := none
  destination_address_1 : Option String := none
  destination_address_2 : Option String := none
  destination_city : Option String := none
  destination_zip_code : Option String := none
  destination_phone : Option String := none
  destination_email : Option String := none
  client_id : Option String := none
  cancel_reason : Option String := none
  rdo_integration_id : Option String := none
  address_change : Option String := none
  divisi : Option String := none
  pre_status : Option String := none
deriving DecidableEq, Repr

/-- The DO UPDATE SET clause of the order upsert
(copy_order_data_upsert.py, lines 129-162): every column of the incoming row
is written except the conflict key faktur_id and the two columns absent from
the SET list, created_date and created_by, which keep their stored values. -/
def orderUpsertMerge (old incoming : OrderRow) : OrderRow :=
  { faktur_id := old.faktur_id
    created_date := old.created_date
    created_by := old.created_by
    faktur_date := incoming.faktur_date
    delivery_date := incoming.delivery_date
    do_number := incoming.do_number
    status := incoming.status
    skip_count := incoming.skip_count
    updated_date := incoming.updated_date
    updated_by := incoming.updated_by
    notes := incoming.notes
    customer_id := incoming.customer_id
    warehouse_id := incoming.warehouse_id
    delivery_type_id := incoming.delivery_type_id
    order_integration_id := incoming.order_integration_id
    origin_name := incoming.origin_name
    origin_address_1 := incoming.origin_address_1
    origin_address_2 := incoming.origin_address_2
    origin_city := incoming.origin_city
    origin_zipcode := incoming.origin_zipcode
    origin_phone := incoming.origin_phone
    origin_email := incoming.origin_email
    destination_name := incoming.destination_name
    destination_address_1 := incoming.destination_address_1
    destination_address_2 := incoming.destination_address_2
    destination_city := incoming.destination_city
    destination_zip_code := incoming.destination_zip_code
    destination_phone := incoming.destination_phone
    destination_email := incoming.destination_email
    client_id := incoming.client_id
    cancel_reason := incoming.cancel_reason
    rdo_integration_id := incoming.rdo_integration_id
    address_change := incoming.address_change
    divisi := incoming.divisi
    pre_status := incoming.pre_status }

/-- ON CONFLICT (faktur_id, faktur_date, customer_id) DO NOTHING of the
composite order writer (copy_order_data.py, lines 124-137): the stored row
is left entirely unchanged. -/
def orderCompositeMerge (old incoming : OrderRow) : OrderRow := old

/-- Conflict key of the upsert order writer. -/
def orderKey (r : OrderRow) : Option String := r.faktur_id

/-- Conflict key of the composite order writer. -/
def orderCompositeKey (r : OrderRow) : Option String × Option Int × Option String :=
  (r.faktur_id, r.faktur_date, r.customer_id)

/-- One row of the order_detail SELECT / order_detail_main INSERT column list
(copy_order_data_upsert.py): 20 columns; order_id is the target surrogate id
taken from order_main in the source SELECT. -/
structure DetailRow where
  quantity_faktur : Option Int := none
  net_price : Option Int := none
  quantity_wms : Option Int := none
  quantity_delivery : Option Int := none
  quantity_loading : Option Int := none
  quantity_unloading : Option Int := none
  status : Option String := none
  cancel_reason : Option String := none
  notes : Option String := none
  order_id : Option Int := none
  product_id : Option String := none
  unit_id : Option String := none
  pack_id : Option String := none
  line_id : Option Int := none
  unloading_latitude : Option String := none
  unloading_longitude : Option String := none
  origin_uom : Option String := none
  origin_qty : Option Int := none
  total_ctn : Option Int := none
  total_pcs : Option Int := none
deriving DecidableEq, Repr

/-- Conflict key (order_id, product_id, line_id) of the order_detail upsert. -/
def detailKey (r : DetailRow) : Option Int × Option String × Option Int :=
  (r.order_id, r.product_id, r.line_id)

/-- The DO UPDATE SET clause of the order_detail upsert
(copy_order_data_upsert.py, lines 255-272): all 17 non-key columns are
overwritten with the incoming values. -/
def detailUpsertMerge (old incoming : DetailRow) : DetailRow :=
  { order_id := old.order_id
    product_id := old.product_id
    line_id := old.line_id
    quantity_faktur := incoming.quantity_faktur
    net_price := incoming.net_price
    quantity_wms := incoming.quantity_wms
    quantity_delivery := incoming.quantity_delivery
    quantity_loading := incoming.quantity_loading
    quantity_unloading := incoming.quantity_unloading
    status := incoming.status
    cancel_reason := incoming.cancel_reason
    notes := incoming.notes
    unit_id := incoming.unit_id
    pack_id := incoming.pack_id
    unloading_latitude := incoming.unloading_latitude
    unloading_longitude := incoming.unloading_longitude
    origin_uom := incoming.origin_uom
    origin_qty := incoming.origin_qty
    total_ctn := incoming.total_ctn
    total_pcs := incoming.total_pcs }

/-- Batched order upsert write of copy_order_data_upsert. -/
def applyOrderUpsertBatch (db : Option String → Option OrderRow) (batch : List OrderRow) :
    Option String → Option OrderRow :=
  applyBatch orderKey orderUpsertMerge db batch

/-- Batched composite order write of copy_order_data_composite. -/
def applyOrderCompositeBatch
    (db : Option String × Option Int × Option String → Option OrderRow)
    (batch : List OrderRow) :
    Option String × Option Int × Option String → Option OrderRow :=
  applyBatch orderCompositeKey orderCompositeMerge db batch

/-- Batched order_detail upsert write of copy_order_detail_data_upsert. -/
def applyDetailUpsertBatch
    (db : Option Int × Option String × Option Int → Option DetailRow)
    (batch : List DetailRow) :
    Option Int × Option String × Option Int → Option DetailRow :=
  applyBatch detailKey detailUpsertMerge db batch

/-!
Batch write with retry (copy_order_data_upsert.py, lines 164-192 and
275-299).  The target rejects a batch containing a row whose date value is
outside the storable range; on failure the transaction is rolled back and
the whole batch is re-attempted, up to max_retries times, after which the
error is re-raised to the caller.  There is no per-row fallback in the
source: the loop always re-executes the full batch.
-/

/-- Error classes surfaced by a batch write. -/
inductive DBErr where
  | dataIntegrity
deriving DecidableEq, Repr

/-- Bounds of the storable date range of the target date columns; a source
row can carry a date outside them (the repository's fix_invalid_dates and
debug_invalid_dates scripts exist because such rows occur). -/
def pgDateLow : Int := -2451545

/-- Upper bound of the storable date range. -/
def pgDateHigh : Int := 2147483493

/-- A nullable date column value is storable when it is NULL or in range. -/
def validDate : Option Int → Bool
  | none => true
  | some d => decide (pgDateLow ≤ d) && decide (d ≤ pgDateHigh)

/-- An order row is storable when every date column it carries is in range. -/
def orderRowStorable (r : OrderRow) : Bool :=
  validDate r.faktur_date && validDate r.delivery_date &&
  validDate r.created_date && validDate r.updated_date

/-- Executing the batched order upsert inside one transaction: a single
out-of-range date poisons the whole statement batch, and nothing commits. -/
def execOrderBatch (db : Option String → Option OrderRow) (batch : List OrderRow) :
    Except DBErr (Option String → Option OrderRow) :=
  if batch.all orderRowStorable then
    Except.ok (applyOrderUpsertBatch db batch)
  else
    Except.error DBErr.dataIntegrity

/-- The retry loop of the upsert writer, parameterised by the transactional
execution of one attempt.  remaining counts the attempts the while loop may
still make (retry_count starts at 0 and the loop runs while
retry_count < max_retries); a failed attempt rolls back, leaving db
unchanged, and the last failure re-raises the error. -/
def writeBatchWithRetry {σ ρ : Type} (exec : σ → List ρ → Except DBErr σ)
    (db : σ) (batch : List ρ) : Nat → Except DBErr σ
  | 0 => Except.ok db
  | Nat.succ n =>
    match exec db batch with
    | Except.ok db2 => Except.ok db2
    | Except.error e =>
      match n with
      | 0 => Except.error e
      | Nat.succ m => writeBatchWithRetry exec db batch (Nat.succ m)

/-!
Identity resolver (copy_april_fixed.py, lines 270-298).  A child order
detail row carries the parent's natural key (faktur_id, faktur_date,
customer_id); the target surrogate order_id is looked up in order_main.
When the source customer_id is NULL the lookup predicate becomes
customer_id IS NULL; otherwise it is an SQL equality, which never matches
a NULL stored value.
-/

/-- SQL three-valued equality collapsed to a Bool filter: comparing with a
NULL on either side never matches. -/
def sqlEq {α : Type} [BEq α] : Option α → Option α → Bool
  | some a, some b => a == b
  | _, _ => false

/-- A row of order_main as used by the resolver lookup. -/
structure OrderMainRec where
  order_id : Int
  faktur_id : Option String := none
  faktur_date : Option Int := none
  customer_id : Option String := none
deriving DecidableEq, Repr

/-- One row of the order-detail extraction batch of copy_april_order_details:
the 19 detail payload columns followed by the parent natural key
(o.faktur_id, o.faktur_date, o.customer_id). -/
structure AprilDetailRec where
  quantity_faktur : Option Int := none
  net_price : Option Int := none
  quantity_wms : Option Int := none
  quantity_delivery : Option Int := none
  quantity_loading : Option Int := none
  quantity_unloading : Option Int := none
  status : Option String := none
  cancel_reason : Option String := none
  notes : Option String := none
  product_id : Option String := none
  unit_id : Option String := none
  pack_id : Option String := none
  line_id : Option Int := none
  unloading_latitude : Option String := none
  unloading_longitude : Option String := none
  origin_uom : Option String := none
  origin_qty : Option Int := none
  total_ctn : Option Int := none
  total_pcs : Option Int := none
  faktur_id : Option String := none
  faktur_date : Option Int := none
  customer_id : Option String := none
deriving DecidableEq, Repr

/-- The resolver lookup (copy_april_fixed.py, lines 275-289): SELECT order_id
FROM order_main WHERE faktur_id = p1 AND faktur_date = p2 AND either
customer_id IS NULL (source customer NULL) or customer_id = p3. -/
def lookup_order_id (order_main : List OrderMainRec)
    (fid : Option String) (fdate : Option Int) (cust : Option String) : Option Int :=
  match cust with
  | none =>
    (order_main.find? fun t =>
      sqlEq t.faktur_id fid && sqlEq t.faktur_date fdate && t.customer_id == none).map
      (fun t => t.order_id)
  | some c =>
    (order_main.find? fun t =>
      sqlEq t.faktur_id fid && sqlEq t.faktur_date fdate && sqlEq t.customer_id (some c)).map
      (fun t => t.order_id)

/-- Re-parenting of a resolved batch row: record[:-3] + (order_id,), i.e. the
19 payload columns with the resolved surrogate id appended
(the INSERT column list ends in order_id). -/
def aprilToDetailRow (rec : AprilDetailRec) (oid : Int) : DetailRow :=
  { quantity_faktur := rec.quantity_faktur
    net_price := rec.net_price
    quantity_wms := rec.quantity_wms
    quantity_delivery := rec.quantity_delivery
    quantity_loading := rec.quantity_loading
    quantity_unloading := rec.quantity_unloading
    status := rec.status
    cancel_reason := rec.cancel_reason
    notes := rec.notes
    product_id := rec.product_id
    unit_id := rec.unit_id
    pack_id := rec.pack_id
    line_id := rec.line_id
    unloading_latitude := rec.unloading_latitude
    unloading_longitude := rec.unloading_longitude
    origin_uom := rec.origin_uom
    origin_qty := rec.origin_qty
    total_ctn := rec.total_ctn
    total_pcs := rec.total_pcs
    order_id := some oid }

/-- Resolver applied to one batch row. -/
def resolveAprilRec (order_main : List OrderMainRec) (rec : AprilDetailRec) : Option Int :=
  lookup_order_id order_main rec.faktur_id rec.faktur_date rec.customer_id

/-- The per-batch resolution loop (copy_april_fixed.py, lines 269-298):
rows whose parent resolves are collected for the batched insert, rows whose
parent is not found increment failed_count and are dropped; the loop never
raises and never aborts the batch. -/
def process_april_batch (order_main : List OrderMainRec) (batch : List AprilDetailRec) :
    List DetailRow × Nat :=
  match batch with
  | [] => ([], 0)
  | rec :: rest =>
    let tail := process_april_batch order_main rest
    match resolveAprilRec order_main rec with
    | some oid => (aprilToDetailRow rec oid :: tail.1, tail.2)
    | none => (tail.1, tail.2 + 1)

/-!
Order-detail extraction loop of copy_order_detail_data_upsert
(copy_order_data_upsert.py, lines 199-299).  The count query filters the
joined rows by o.warehouse_id = w, but the page SELECT only filters by the
date range; the while loop stops once offset reaches the (warehouse
filtered) total.
-/

/-- SQL BETWEEN on a nullable date column: NULL never satisfies the filter. -/
def dateBetween (d : Option Int) (s e : Int) : Bool :=
  match d with
  | some v => decide (s ≤ v) && decide (v ≤ e)
  | none => false

/-- A source "order" row as used by the detail extraction join and filters. -/
structure SrcOrder where
  order_id : Int
  faktur_id : Option String := none
  faktur_date : Option Int := none
  warehouse_id : Option Int := none
deriving DecidableEq, Repr

/-- A source order_detail row: the foreign key to "order" plus the 19
payload columns forwarded into order_detail_main. -/
structure SrcDetail where
  order_id : Option Int := none
  quantity_faktur : Option Int := none
  net_price : Option Int := none
  quantity_wms : Option Int := none
  quantity_delivery : Option Int := none
  quantity_loading : Option Int := none
  quantity_unloading : Option Int := none
  status : Option String := none
  cancel_reason : Option String := none
  notes : Option String := none
  product_id : Option String := none
  unit_id : Option String := none
  pack_id : Option String := none
  line_id : Option Int := none
  unloading_latitude : Option String := none
  unloading_longitude : Option String := none
  origin_uom : Option String := none
  origin_qty : Option Int := none
  total_ctn : Option Int := none
  total_pcs : Option Int := none
deriving DecidableEq, Repr

/-- Strict comparison used to model ORDER BY o.faktur_date ascending with
NULLs last (PostgreSQL default). -/
def dateLt : Option Int → Option Int → Bool
  | some a, some b => decide (a < b)
  | some _, none => true
  | none, _ => false

/-- Stable insertion used to model a stable ORDER BY. -/
def insertOrdered {α : Type} (lt : α → α → Bool) (x : α) : List α → List α
  | [] => [x]
  | y :: ys => if lt y x then y :: insertOrdered lt x ys else x :: y :: ys

/-- Stable insertion sort used to model a stable ORDER BY. -/
def sortOrdered {α : Type} (lt : α → α → Bool) : List α → List α
  | [] => []
  | x :: xs => insertOrdered lt x (sortOrdered lt xs)

/-- The SELECT output row: the 19 detail payload columns plus om.order_id. -/
def srcToDetailRow (od : SrcDetail) (om_order_id : Int) : DetailRow :=
  { quantity_faktur := od.quantity_faktur
    net_price := od.net_price
    quantity_wms := od.quantity_wms
    quantity_delivery := od.quantity_delivery
    quantity_loading := od.quantity_loading
    quantity_unloading := od.quantity_unloading
    status := od.status
    cancel_reason := od.cancel_reason
    notes := od.notes
    order_id := some om_order_id
    product_id := od.product_id
    unit_id := od.unit_id
    pack_id := od.pack_id
    line_id := od.line_id
    unloading_latitude := od.unloading_latitude
    unloading_longitude := od.unloading_longitude
    origin_uom := od.origin_uom
    origin_qty := od.origin_qty
    total_ctn := od.total_ctn
    total_pcs := od.total_pcs }

/-- The count query (copy_order_data_upsert.py, lines 205-209): details
joined to their orders, filtered by date range AND o.warehouse_id = w. -/
def count_detail_records (details : List SrcDetail) (orders : List SrcOrder)
    (s e : Int) (w : Int) : Nat :=
  (details.flatMap fun od =>
    orders.filter fun o =>
      sqlEq od.order_id (some o.order_id) && dateBetween o.faktur_date s e &&
      sqlEq o.warehouse_id (some w)).length

/-- The full result set of the page SELECT (copy_order_data_upsert.py,
lines 230-243) before LIMIT/OFFSET: details joined to their orders and to
order_main on faktur_id, filtered ONLY by the date range (the warehouse
filter of the count query is absent here), ordered by o.faktur_date. -/
def detail_select_rows (details : List SrcDetail) (orders : List SrcOrder)
    (order_main : List OrderMainRec) (s e : Int) : List DetailRow :=
  let joined := details.flatMap fun od =>
    (orders.filter fun o =>
      sqlEq od.order_id (some o.order_id) && dateBetween o.faktur_date s e).flatMap fun o =>
      (order_main.filter fun om => sqlEq o.faktur_id om.faktur_id).map fun om =>
        (od, o, om)
  (sortOrdered (fun p q => dateLt p.2.1.faktur_date q.2.1.faktur_date) joined).map
    fun t => srcToDetailRow t.1 t.2.2.order_id

/-- The pagination loop: while offset < total_records, fetch LIMIT batchSize
OFFSET offset, stop on an empty page, otherwise process the page and advance
offset by batchSize.  fuel bounds the number of iterations (the Python loop
terminates whenever batchSize is positive). -/
def detailLoopFuel (rows : List DetailRow) (total batchSize : Nat) :
    Nat → Nat → List DetailRow
  | 0, _ => []
  | Nat.succ f, offset =>
    if offset < total then
      let page := (rows.drop offset).take batchSize
      if page.isEmpty then []
      else page ++ detailLoopFuel rows total batchSize f (offset + batchSize)
    else []

/-- The rows processed (fetched and upserted) by one invocation of
copy_order_detail_data_upsert; processed_count is the length of this list. -/
def copy_order_detail_data_upsert_rows (details : List SrcDetail)
    (orders : List SrcOrder) (order_main : List OrderMainRec)
    (s e : Int) (w : Int) (batchSize : Nat) : List DetailRow :=
  let total := count_detail_records details orders s e w
  detailLoopFuel (detail_select_rows details orders order_main s e)
    total batchSize (total + 1) 0

/-!
Reconciliation engine
(services/data_comparison_service.py, compare_data_by_date_range).
Side A: Order joined to OrderDetail, grouped by do_number with a row count.
Side B: CleansedOutboundDocuments joined to CleansedOutboundItems, grouped
by outbound_reference with a row count.  A discrepancy is reported for each
key whose two counts differ, with abs(count difference) attached.
-/

/-- A Database A order row as read by the comparison query. -/
structure AOrder where
  order_id : Int
  do_number : Option String := none
  faktur_date : Option Int := none
deriving DecidableEq, Repr

/-- A Database A order_detail row as read by the comparison query. -/
structure ADetail where
  order_detail_id : Int
  order_id : Int
deriving DecidableEq, Repr

/-- A cleansed_outbound_documents row as read by the comparison query. -/
structure BDoc where
  id : Int
  outbound_reference : Option String := none
  faktur_date : Option Int := none
  warehouse_id : Option String := none
  client_id : Option String := none
deriving DecidableEq, Repr

/-- A cleansed_outbound_items row as read by the comparison query. -/
structure BItem where
  id : Int
  document_id : Int
deriving DecidableEq, Repr

/-- The joined rows of the side-A query: each order in range paired with
each of its details (inner join on order_id). -/
def pairsA (orders : List AOrder) (details : List ADetail) (s e : Int) :
    List (AOrder × ADetail) :=
  orders.flatMap fun o =>
    if dateBetween o.faktur_date s e then
      (details.filter fun d => d.order_id == o.order_id).map fun d => (o, d)
    else []

/-- The joined rows of the side-B query. -/
def pairsB (docs : List BDoc) (items : List BItem) (s e : Int) :
    List (BDoc × BItem) :=
  docs.flatMap fun o =>
    if dateBetween o.faktur_date s e then
      (items.filter fun it => it.document_id == o.id).map fun it => (o, it)
    else []

/-- GROUP BY do_number count on side A, with the dict .get default of 0 for
an absent key (GROUP BY places all NULL keys in one group). -/
def db_a_count (orders : List AOrder) (details : List ADetail) (s e : Int)
    (ref : Option String) : Nat :=
  (pairsA orders details s e).countP fun p => p.1.do_number == ref

/-- GROUP BY outbound_reference count on side B. -/
def db_b_count (docs : List BDoc) (items : List BItem) (s e : Int)
    (ref : Option String) : Nat :=
  (pairsB docs items s e).countP fun p => p.1.outbound_reference == ref

/-- One reported discrepancy (schemas/payload_schemas.DiscrepancyResult). -/
structure DiscrepancyResult where
  do_number : Option String
  db_a_count : Nat
  db_b_count : Nat
  discrepancy_count : Nat
  warehouse_id : Option String
  client_id : Option String
deriving DecidableEq, Repr

/-- DataComparisonService.compare_data_by_date_range: iterate over the union
of the grouped keys of both sides, and report every key whose counts differ,
with abs(difference) and the partition attributes of the first matching
Database B document. -/
def compare_data_by_date_range (orders : List AOrder) (details : List ADetail)
    (docs : List BDoc) (items : List BItem) (s e : Int) : List DiscrepancyResult :=
  let keys := ((pairsA orders details s e).map (fun p => p.1.do_number) ++
    (pairsB docs items s e).map (fun p => p.1.outbound_reference)).dedup
  keys.filterMap fun ref =>
    let a := db_a_count orders details s e ref
    let b := db_b_count docs items s e ref
    if a ≠ b then
      let info := docs.find? fun o => o.outbound_reference == ref
      some { do_number := ref
             db_a_count := a
             db_b_count := b
             discrepancy_count := Nat.dist a b
             warehouse_id := info.bind (fun o => o.warehouse_id)
             client_id := info.bind (fun o => o.client_id) }
    else none

/-- Mirrors a Database A order as the identically-seeded Database B document
(same key, same date; wh and cl are the constant partition attributes). -/
def mirrorDoc (wh cl : Option String) (o : AOrder) : BDoc :=
  { id := o.order_id
    outbound_reference := o.do_number
    faktur_date := o.faktur_date
    warehouse_id := wh
    client_id := cl }

/-- Mirrors a Database A order detail as the identically-seeded item row. -/
def mirrorItem (d : ADetail) : BItem :=
  { id := d.order_detail_id, document_id := d.order_id }

/-!
Payload assembler (create_order_clean_payload.build_json_payload,
lines 198-296).  One payload per document; items grouped by
outbound_document_id, conversions grouped by outbound_item_id; scalar
fields null-coalesced as in the source.
-/

/-- Python `str(x) if x else ""` on a nullable text column. -/
def pyStrCoalesce : Option String → String
  | none => ""
  | some s => s

/-- Python `float(x) if x else 0` on a nullable numeric column
(0 itself is falsy and maps to 0, so the truthiness test is invisible). -/
def pyNumCoalesce0 : Option Int → Int
  | none => 0
  | some v => v

/-- Python `float(x) if x else 1` on a nullable numeric column: NULL and 0
both coalesce to 1. -/
def pyNumCoalesce1 : Option Int → Int
  | none => 1
  | some v => if v = 0 then 1 else v

/-- strftime rendering of a stored date, only applied to non-NULL values. -/
def dateToStr (d : Int) : String := toString d

/-- The outbound_documents columns read by build_json_payload, with their
tuple indices from the documents SELECT. -/
structure OutDocRow where
  id : Int
  document_reference : Option String := none
  create_date : Option Int := none
  dev_date : Option Int := none
  client_id : Option String := none
  origin_name : Option String := none
  destination_id : Option String := none
  destination_name : Option String := none
  destination_address_1 : Option String := none
  divisi : Option String := none
deriving DecidableEq, Repr

/-- The outbound_items columns read by build_json_payload. -/
structure OutItemRow where
  id : Int
  line_id : Option String := none
  warehouse_id : Option String := none
  pack_id : Option String := none
  product_id : Option String := none
  product_type : Option String := none
  qty : Option Int := none
  uom : Option String := none
  product_net_price : Option Int := none
  group_id : Option String := none
  group_description : Option String := none
  product_description : Option String := none
  outbound_document_id : Int
deriving DecidableEq, Repr

/-- The outbound_conversions columns read by build_json_payload. -/
structure OutConvRow where
  id : Int
  uom : Option String := none
  numerator : Option Int := none
  denominator : Option Int := none
  outbound_item_id : Int
deriving DecidableEq, Repr

/-- One element of an item's conversion array: uom is copied through without
coalescing, numerator and denominator coalesce NULL (and 0) to 1. -/
structure ConvObj where
  uom : Option String
  numerator : Int
  denominator : Int
deriving DecidableEq, Repr

/-- One element of a payload's items array: every scalar here is coalesced
and image_url is the constant singleton list containing the empty string. -/
structure ItemObj where
  warehouse_id : String
  line_id : String
  product_id : String
  product_description : String
  group_id : String
  group_description : String
  product_type : String
  qty : Int
  uom : String
  pack_id : String
  product_net_price : Int
  conversion : List ConvObj
  image_url : List String
deriving DecidableEq, Repr

/-- The nested payload object built per document. -/
structure PayloadObj where
  warehouse_id : String
  client_id : String
  outbound_reference : String
  divisi : String
  faktur_date : String
  request_delivery_date : String
  origin_name : String
  origin_address_1 : String
  origin_address_2 : String
  origin_city : String
  origin_phone : String
  origin_email : String
  destination_id : String
  destination_name : String
  destination_address_1 : String
  destination_address_2 : String
  destination_city : String
  destination_zip_code : String
  destination_phone : String
  destination_email : String
  order_type : String
  items : List ItemObj
deriving DecidableEq, Repr

/-- One element of the returned payloads list (the row persisted into
order_clean_payload). -/
structure PayloadEntry where
  warehouse_id : String
  outbound_reference : String
  payload_data : PayloadObj
  faktur_date : Option Int
  client_id : String
deriving DecidableEq, Repr

/-- Builds one element of the conversion array. -/
def buildConvObj (c : OutConvRow) : ConvObj :=
  { uom := c.uom
    numerator := pyNumCoalesce1 c.numerator
    denominator := pyNumCoalesce1 c.denominator }

/-- Builds one element of the items array; conversions are the rows grouped
under this item's id. -/
def buildItemObj (conversions : List OutConvRow) (item : OutItemRow) : ItemObj :=
  { warehouse_id := pyStrCoalesce item.warehouse_id
    line_id := pyStrCoalesce item.line_id
    product_id := pyStrCoalesce item.product_id
    product_description := pyStrCoalesce item.product_description
    group_id := pyStrCoalesce item.group_id
    group_description := pyStrCoalesce item.group_description
    product_type := pyStrCoalesce item.product_type
    qty := pyNumCoalesce0 item.qty
    uom := pyStrCoalesce item.uom
    pack_id := pyStrCoalesce item.pack_id
    product_net_price := pyNumCoalesce0 item.product_net_price
    conversion := (conversions.filter fun c => c.outbound_item_id == item.id).map buildConvObj
    image_url := [""] }

/-- Builds the per-document payload entry; the items of the document are the
rows grouped under its id (dict .get default: the empty list). -/
def buildPayloadEntry (items : List OutItemRow) (conversions : List OutConvRow)
    (doc : OutDocRow) : PayloadEntry :=
  let items_array :=
    ((items.filter fun it => it.outbound_document_id == doc.id).map
      (buildItemObj conversions))
  { warehouse_id := pyStrCoalesce doc.origin_name
    outbound_reference := pyStrCoalesce doc.document_reference
    payload_data :=
      { warehouse_id := pyStrCoalesce doc.origin_name
        client_id := pyStrCoalesce doc.client_id
        outbound_reference := pyStrCoalesce doc.document_reference
        divisi := pyStrCoalesce doc.divisi
        faktur_date := match doc.create_date with
          | some d => dateToStr d
          | none => ""
        request_delivery_date := match doc.dev_date with
          | some d => dateToStr d
          | none => ""
        origin_name := pyStrCoalesce doc.origin_name
        origin_address_1 := pyStrCoalesce doc.origin_name
        origin_address_2 := ""
        origin_city := pyStrCoalesce doc.origin_name
        origin_phone := ""
        origin_email := ""
        destination_id := pyStrCoalesce doc.destination_id
        destination_name := pyStrCoalesce doc.destination_name
        destination_address_1 := pyStrCoalesce doc.destination_address_1
        destination_address_2 := pyStrCoalesce doc.destination_address_1
        destination_city := pyStrCoalesce doc.destination_address_1
        destination_zip_code := ""
        destination_phone := ""
        destination_email := ""
        order_type := "REG"
        items := items_array }
    faktur_date := doc.create_date
    client_id := pyStrCoalesce doc.client_id }

/-- build_json_payload: one payload entry per document, in document order. -/
def build_json_payload (documents : List OutDocRow) (items : List OutItemRow)
    (conversions : List OutConvRow) : List PayloadEntry :=
  documents.map (buildPayloadEntry items conversions)

/-!
Optimized OrderLine fill path (copy_order_details_optimized.py).  Step 2
drops every outbound item whose resolved product_id is NULL or empty and
transforms the rest; insert_order_details_batch re-checks the same
condition per chunk before writing.
-/

/-- One element of the outbound_data dict list built by
get_optimized_outbound_data; product_id comes from a LEFT JOIN on the
product master and is NULL when the product cannot be resolved. -/
structure RawOutboundItem where
  id : Int
  sku : Option String := none
  qty : Int := 0
  uom : Option String := none
  pack_id : Option String := none
  line_id : Option Int := none
  outbound_document_id : Option Int := none
  document_reference : Option String := none
  order_id : Option Int := none
  do_number : Option String := none
  faktur_date : Option Int := none
  warehouse_id : Option String := none
  product_id : Option String := none
  net_price : Option Int := none
  numerator : Option Int := none
  denominator : Option Int := none
deriving DecidableEq, Repr

/-- The order_detail dict assembled in step 2 of copy_order_details_optimized
(also the tuple shape appended to batch_values in
insert_order_details_batch). -/
structure OptimizedDetail where
  order_id : Option Int
  product_id : Option String
  quantity_faktur : Int
  net_price : Option Int
  pack_id : Option String
  line_id : Option Int
  origin_uom : Option String
  origin_qty : Int
  total_ctn : Int
  total_pcs : Int
deriving DecidableEq, Repr

/-- Step 2 transformation of one resolvable outbound item. -/
def toOptimizedDetail (item : RawOutboundItem) : OptimizedDetail :=
  let q := calculate_quantities_optimized item.qty item.uom item.numerator item.denominator
  { order_id := item.order_id
    product_id := item.product_id
    quantity_faktur := q.1
    net_price := item.net_price
    pack_id := item.pack_id
    line_id := item.line_id
    origin_uom := item.uom
    origin_qty := item.qty
    total_ctn := q.2.2
    total_pcs := q.2.1 }

/-- Step 2 loop (copy_order_details_optimized.py, lines 246-285): items with
a falsy product_id are skipped and counted, the rest are transformed; the
loop continues past every skip. -/
def process_outbound_data (data : List RawOutboundItem) : List OptimizedDetail × Nat :=
  match data with
  | [] => ([], 0)
  | item :: rest =>
    let tail := process_outbound_data rest
    if pyTruthyStr item.product_id then
      (toOptimizedDetail item :: tail.1, tail.2)
    else
      (tail.1, tail.2 + 1)

/-- The batch_values preparation loop of insert_order_details_batch
(copy_order_details_optimized.py, lines 166-190): rows with a falsy
product_id are skipped and counted, the rest are queued for the batch
INSERT. -/
def prepare_batch_values (batch : List OptimizedDetail) : List OptimizedDetail × Nat :=
  match batch with
  | [] => ([], 0)
  | item :: rest =>
    let tail := prepare_batch_values rest
    if pyTruthyStr item.product_id then
      (item :: tail.1, tail.2)
    else
      (tail.1, tail.2 + 1)

/-- insert_order_details_batch: process the data in chunks of batchSize,
returning (rows written to order_detail_main, inserted_count,
skipped_count).  A zero batchSize is rejected up front (in the source,
range with step 0 cannot occur because the step is the constant 1000). -/
def insert_order_details_batch (data : List OptimizedDetail) (batchSize : Nat) :
    List OptimizedDetail × Nat × Nat :=
  if h : data = [] ∨ batchSize = 0 then ([], 0, 0)
  else
    let batch := data.take batchSize
    let pv := prepare_batch_values batch
    let rest := insert_order_details_batch (data.drop batchSize) batchSize
    (pv.1 ++ rest.1, pv.1.length + rest.2.1, pv.2 + rest.2.2)
termination_by data.length
decreasing_by
  simp only [not_or] at h
  have h1 : data ≠ [] := h.1
  have h2 : batchSize ≠ 0 := h.2
  have hlen : 0 < data.length := List.length_pos.mpr h1
  simp only [List.length_drop]
  omega

/-- Per-key effect of one upserted row on the value stored at that key. -/
def upsertStep {ρ : Type} (merge : ρ → ρ → ρ) (o : Option ρ) (r : ρ) : Option ρ :=
  some (match o with
        | some a => merge a r
        | none => r)

/-!
Theorems.  First the algebra of keyed batch upserts, then the ten claims.
-/

theorem applyBatch_key {κ ρ : Type} [DecidableEq κ] (key : ρ → κ) (merge : ρ → ρ → ρ)
    (batch : List ρ) (db : κ → Option ρ) (k : κ) :
    applyBatch key merge db batch k =
      (batch.filter fun r => decide (key r = k)).foldl (upsertStep merge) (db k) := by
  induction batch generalizing db with
  | nil => rfl
  | cons r bs ih =>
    have happ : applyBatch key merge db (r :: bs) =
        applyBatch key merge (upsertRow key merge db r) bs := rfl
    rw [happ, ih]
    by_cases h : key r = k
    · subst h
      have h1 : upsertRow key merge db r (key r) = upsertStep merge (db (key r)) r := by
        simp [upsertRow, upsertStep]
      have h2 : (r :: bs).filter (fun x => decide (key x = key r)) =
          r :: bs.filter (fun x => decide (key x = key r)) := by
        simp [List.filter_cons]
      rw [h1, h2, List.foldl_cons]
    · have h1 : upsertRow key merge db r k = db k := by
        simp only [upsertRow]
        rw [if_neg]
        intro hk
        exact h hk.symm
      have h2 : (r :: bs).filter (fun x => decide (key x = k)) =
          bs.filter (fun x => decide (key x = k)) := by
        simp [List.filter_cons, h]
      rw [h1, h2]

theorem mergeFold_absorb {ρ : Type} (merge : ρ → ρ → ρ)
    (absorbL : ∀ x y z, merge (merge x y) z = merge x z)
    (absorbR : ∀ x y z, merge x (merge y z) = merge x z)
    (l : List ρ) (a b : ρ) :
    l.foldl merge (merge a b) = merge a (l.foldl merge b) := by
  induction l generalizing a b with
  | nil => rfl
  | cons x l2 ih =>
    simp only [List.foldl_cons]
    rw [absorbL a b x, ih, ih b x, absorbR]

theorem foldl_upsertStep_some {ρ : Type} (merge : ρ → ρ → ρ) (l : List ρ) (a : ρ) :
    l.foldl (upsertStep merge) (some a) = some (l.foldl merge a) := by
  induction l generalizing a with
  | nil => rfl
  | cons x l2 ih =>
    simp only [List.foldl_cons]
    have : upsertStep merge (some a) x = some (merge a x) := rfl
    rw [this, ih]

theorem foldl_upsertStep_idem {ρ : Type} (merge : ρ → ρ → ρ)
    (absorbL : ∀ x y z, merge (merge x y) z = merge x z)
    (absorbR : ∀ x y z, merge x (merge y z) = merge x z)
    (idem : ∀ x, merge x x = x)
    (l : List ρ) (o : Option ρ) :
    l.foldl (upsertStep merge) (l.foldl (upsertStep merge) o) =
      l.foldl (upsertStep merge) o := by
  cases l with
  | nil => rfl
  | cons x l2 =>
    simp only [List.foldl_cons]
    cases o with
    | some a =>
      have e1 : List.foldl (upsertStep merge) (upsertStep merge (some a) x) l2 =
          some (List.foldl merge (merge a x) l2) := by
        have h : upsertStep merge (some a) x = some (merge a x) := rfl
        rw [h, foldl_upsertStep_some]
      rw [e1]
      have e2 : upsertStep merge (some (List.foldl merge (merge a x) l2)) x =
          some (merge (List.foldl merge (merge a x) l2) x) := rfl
      rw [e2, foldl_upsertStep_some]
      rw [mergeFold_absorb merge absorbL absorbR l2 a x]
      rw [absorbL a (List.foldl merge x l2) x]
      rw [mergeFold_absorb merge absorbL absorbR l2 a x]
    | none =>
      have e1 : List.foldl (upsertStep merge) (upsertStep merge none x) l2 =
          some (List.foldl merge x l2) := by
        have h : upsertStep merge none x = some x := rfl
        rw [h, foldl_upsertStep_some]
      rw [e1]
      have e2 : upsertStep merge (some (List.foldl merge x l2)) x =
          some (merge (List.foldl merge x l2) x) := rfl
      rw [e2, foldl_upsertStep_some]
      rw [mergeFold_absorb merge absorbL absorbR l2 (List.foldl merge x l2) x]
      rw [idem]

theorem applyBatch_idem {κ ρ : Type} [DecidableEq κ] (key : ρ → κ) (merge : ρ → ρ → ρ)
    (absorbL : ∀ x y z, merge (merge x y) z = merge x z)
    (absorbR : ∀ x y z, merge x (merge y z) = merge x z)
    (idem : ∀ x, merge x x = x)
    (db : κ → Option ρ) (batch : List ρ) :
    applyBatch key merge (applyBatch key merge db batch) batch =
      applyBatch key merge db batch := by
  funext k
  rw [applyBatch_key, applyBatch_key]
  exact foldl_upsertStep_idem merge absorbL absorbR idem _ (db k)

/-- C2: re-applying the same extracted batch to the target leaves the target
state unchanged, for the order upsert writer (ON CONFLICT (faktur_id)
DO UPDATE), the order_detail upsert writer (ON CONFLICT (order_id,
product_id, line_id) DO UPDATE), and the composite order writer
(ON CONFLICT (faktur_id, faktur_date, customer_id) DO NOTHING): applying a
batch twice yields the same table (same rows, same field values) as
applying it once. -/
theorem upsert_batch_idempotent :
    (∀ (db : Option String → Option OrderRow) (batch : List OrderRow),
      applyOrderUpsertBatch (applyOrderUpsertBatch db batch) batch =
        applyOrderUpsertBatch db batch) ∧
    (∀ (db : Option Int × Option String × Option Int → Option DetailRow)
      (batch : List DetailRow),
      applyDetailUpsertBatch (applyDetailUpsertBatch db batch) batch =
        applyDetailUpsertBatch db batch) ∧
    (∀ (db : Option String × Option Int × Option String → Option OrderRow)
      (batch : List OrderRow),
      applyOrderCompositeBatch (applyOrderCompositeBatch db batch) batch =
        applyOrderCompositeBatch db batch) := by
  refine ⟨fun db batch => ?_, fun db batch => ?_, fun db batch => ?_⟩
  · exact applyBatch_idem orderKey orderUpsertMerge
      (fun x y z => rfl) (fun x y z => rfl) (fun x => rfl) db batch
  · exact applyBatch_idem detailKey detailUpsertMerge
      (fun x y z => rfl) (fun x y z => rfl) (fun x => rfl) db batch
  · exact applyBatch_idem orderCompositeKey orderCompositeMerge
      (fun x y z => rfl) (fun x y z => rfl) (fun x => rfl) db batch

/-- C6 counterexample: created_by is a non-key column of order_main, yet a
conflicting upsert keeps the stored value (alice) instead of the incoming
one (bob): the write does not update all non-key columns. -/
theorem conflict_update_counterexample :
    (upsertRow orderKey orderUpsertMerge
      (fun k => if k = some "F1" then
          some { faktur_id := some "F1", created_by := some "alice" } else none)
      { faktur_id := some "F1", created_by := some "bob", status := some "NEW" }
      (some "F1")).map (fun r => r.created_by) = some (some "alice") ∧
    (some "alice" : Option String) ≠ some "bob" := by
  constructor
  · rfl
  · decide

/-- C6 amended: on a conflict, the order upsert overwrites every non-key
column except created_date and created_by, which keep their stored values;
the order_detail upsert overwrites all 17 non-key columns; and the composite
order writer (ON CONFLICT DO NOTHING) leaves the stored row entirely
unchanged. -/
theorem conflict_update_semantics :
    (∀ (db : Option String → Option OrderRow) (r old : OrderRow),
      db r.faktur_id = some old →
      upsertRow orderKey orderUpsertMerge db r r.faktur_id =
        some { faktur_id := old.faktur_id
               created_date := old.created_date
               created_by := old.created_by
               faktur_date := r.faktur_date
               delivery_date := r.delivery_date
               do_number := r.do_number
               status := r.status
               skip_count := r.skip_count
               updated_date := r.updated_date
               updated_by := r.updated_by
               notes := r.notes
               customer_id := r.customer_id
               warehouse_id := r.warehouse_id
               delivery_type_id := r.delivery_type_id
               order_integration_id := r.order_integration_id
               origin_name := r.origin_name
               origin_address_1 := r.origin_address_1
               origin_address_2 := r.origin_address_2
               origin_city := r.origin_city
               origin_zipcode := r.origin_zipcode
               origin_phone := r.origin_phone
               origin_email := r.origin_email
               destination_name := r.destination_name
               destination_address_1 := r.destination_address_1
               destination_address_2 := r.destination_address_2
               destination_city := r.destination_city
               destination_zip_code := r.destination_zip_code
               destination_phone := r.destination_phone
               destination_email := r.destination_email
               client_id := r.client_id
               cancel_reason := r.cancel_reason
               rdo_integration_id := r.rdo_integration_id
               address_change := r.address_change
               divisi := r.divisi
               pre_status := r.pre_status }) ∧
    (∀ (db : Option Int × Option String × Option Int → Option DetailRow)
      (r old : DetailRow),
      db (detailKey r) = some old →
      upsertRow detailKey detailUpsertMerge db r (detailKey r) =
        some { order_id := old.order_id
               product_id := old.product_id
               line_id := old.line_id
               quantity_faktur := r.quantity_faktur
               net_price := r.net_price
               quantity_wms := r.quantity_wms
               quantity_delivery := r.quantity_delivery
               quantity_loading := r.quantity_loading
               quantity_unloading := r.quantity_unloading
               status := r.status
               cancel_reason := r.cancel_reason
               notes := r.notes
               unit_id := r.unit_id
               pack_id := r.pack_id
               unloading_latitude := r.unloading_latitude
               unloading_longitude := r.unloading_longitude
               origin_uom := r.origin_uom
               origin_qty := r.origin_qty
               total_ctn := r.total_ctn
               total_pcs := r.total_pcs }) ∧
    (∀ (db : Option String × Option Int × Option String → Option OrderRow)
      (r old : OrderRow),
      db (orderCompositeKey r) = some old →
      upsertRow orderCompositeKey orderCompositeMerge db r (orderCompositeKey r) =
        some old) := by
  refine ⟨fun db r old h => ?_, fun db r old h => ?_, fun db r old h => ?_⟩
  · simp only [upsertRow, orderKey, if_pos rfl]
    rw [h]
    simp [orderUpsertMerge]
  · simp only [upsertRow, if_pos rfl]
    rw [h]
    simp [detailUpsertMerge]
  · simp only [upsertRow, if_pos rfl]
    rw [h]
    simp [orderCompositeMerge]

/-- C6 witness: the amended conflict semantics evaluated at a concrete
stored row and a concrete incoming row, for all three writers. -/
theorem conflict_update_semantics_witness :
    upsertRow orderKey orderUpsertMerge
      (fun k => if k = some "F1" then
          some { faktur_id := some "F1", created_by := some "alice" } else none)
      { faktur_id := some "F1", created_by := some "bob", status := some "NEW" }
      (some "F1") =
      some { faktur_id := some "F1", created_by := some "alice", status := some "NEW" } ∧
    upsertRow detailKey detailUpsertMerge
      (fun k => if k = (some 7, some "P1", some 1) then
          some { order_id := some 7, product_id := some "P1", line_id := some 1,
                 notes := some "old" } else none)
      { order_id := some 7, product_id := some "P1", line_id := some 1,
        notes := some "new" }
      (some 7, some "P1", some 1) =
      some { order_id := some 7, product_id := some "P1", line_id := some 1,
             notes := some "new" } ∧
    upsertRow orderCompositeKey orderCompositeMerge
      (fun k => if k = (some "F1", some 100, some "C1") then
          some { faktur_id := some "F1", faktur_date := some 100,
                 customer_id := some "C1", status := some "OLD" } else none)
      { faktur_id := some "F1", faktur_date := some 100, customer_id := some "C1",
        status := some "NEW" }
      (some "F1", some 100, some "C1") =
      some { faktur_id := some "F1", faktur_date := some 100,
             customer_id := some "C1", status := some "OLD" } := by
  refine ⟨?_, ?_, ?_⟩
  · exact conflict_update_semantics.1
      (fun k => if k = some "F1" then
          some { faktur_id := some "F1", created_by := some "alice" } else none)
      { faktur_id := some "F1", created_by := some "bob", status := some "NEW" }
      { faktur_id := some "F1", created_by := some "alice" } (by rfl)
  · exact conflict_update_semantics.2.1
      (fun k => if k = (some 7, some "P1", some 1) then
          some { order_id := some 7, product_id := some "P1", line_id := some 1,
                 notes := some "old" } else none)
      { order_id := some 7, product_id := some "P1", line_id := some 1,
        notes := some "new" }
      { order_id := some 7, product_id := some "P1", line_id := some 1,
        notes := some "old" } (by rfl)
  · exact conflict_update_semantics.2.2
      (fun k => if k = (some "F1", some 100, some "C1") then
          some { faktur_id := some "F1", faktur_date := some 100,
                 customer_id := some "C1", status := some "OLD" } else none)
      { faktur_id := some "F1", faktur_date := some 100, customer_id := some "C1",
        status := some "NEW" }
      { faktur_id := some "F1", faktur_date := some 100, customer_id := some "C1",
        status := some "OLD" } (by rfl)

/-- C1: a 3-row batch in which exactly the middle row carries an
out-of-range faktur_date.  The upsert writer of copy_order_data_upsert
re-attempts the whole batch max_retries (3) times and then re-raises the
data-integrity error: no row of the batch is committed, there is no
fall back to a per-row retry, and no skipped-row report is produced
(the claimed behaviour would commit 2 rows and report 1 skip). -/
theorem batch_poison_discards_whole_batch :
    writeBatchWithRetry execOrderBatch (fun _ => none)
      [ { faktur_id := some "F1", faktur_date := some 100 },
        { faktur_id := some "F2", faktur_date := some (pgDateHigh + 1) },
        { faktur_id := some "F3", faktur_date := some 100 } ] 3 =
      Except.error DBErr.dataIntegrity ∧
    orderRowStorable { faktur_id := some "F1", faktur_date := some 100 } = true ∧
    orderRowStorable { faktur_id := some "F2", faktur_date := some (pgDateHigh + 1) } = false ∧
    orderRowStorable { faktur_id := some "F3", faktur_date := some 100 } = true := by
  refine ⟨?_, by decide, by decide, by decide⟩
  rfl

/-- C3 counterexample: the empty-string unit is not "PCS" (also not after
upcasing) and a conversion with numerator 3 is available, yet the transform
returns the raw quantity unchanged, not raw_qty * numerator: a falsy unit
takes the PCS branch before the conversion is consulted. -/
theorem quantity_conversion_counterexample :
    (pyUpper (some "") ≠ "PCS") ∧
    calculate_quantities 5 (some "")
      (some { numerator := some 3, denominator := some 2 }) = (5, 5, none) ∧
    (5 : Int) ≠ 5 * 3 := by
  refine ⟨by decide, by rfl, by decide⟩

/-- C3 amended: for a non-empty unit other than "PCS" (case-insensitively),
a conversion with a non-null numerator yields base_qty = total_pcs =
raw_qty * numerator with the denominator never divided in (in the optimized
variant the numerator and denominator must both be non-null and non-zero,
else it falls back to the raw quantity); with no conversion the raw
quantity is returned unchanged; total_ctn is raw_qty exactly on the "CTN"
unit and 0/null otherwise, including on the "PCS" branch. -/
theorem quantity_conversion_amended :
    (∀ (qty : Int) (u : String) (n : Int) (d : Option Int),
      u ≠ "" → pyUpper (some u) ≠ "PCS" →
      calculate_quantities qty (some u) (some { numerator := some n, denominator := d }) =
        (qty * n, qty * n, if pyUpper (some u) = "CTN" then some qty else none)) ∧
    (∀ (qty : Int) (u : String), u ≠ "" → pyUpper (some u) ≠ "PCS" →
      calculate_quantities qty (some u) none =
        (qty, qty, if pyUpper (some u) = "CTN" then some qty else none)) ∧
    (∀ (qty : Int) (u : String) (n d : Int),
      u ≠ "" → pyUpper (some u) ≠ "PCS" → n ≠ 0 → d ≠ 0 →
      calculate_quantities_optimized qty (some u) (some n) (some d) =
        (qty * n, qty * n, if pyUpper (some u) = "CTN" then qty else 0)) ∧
    (∀ (qty : Int) (u : String), u ≠ "" → pyUpper (some u) ≠ "PCS" →
      calculate_quantities_optimized qty (some u) none none =
        (qty, qty, if pyUpper (some u) = "CTN" then qty else 0)) ∧
    (∀ (qty : Int) (cd : Option ConversionData),
      calculate_quantities qty (some "PCS") cd = (qty, qty, none)) := by
  refine ⟨fun qty u n d h1 h2 => ?_, fun qty u h1 h2 => ?_,
    fun qty u n d h1 h2 h3 h4 => ?_, fun qty u h1 h2 => ?_, fun qty cd => ?_⟩
  · simp only [pyUpper, Option.getD_some] at h2
    simp [calculate_quantities, calculate_quantities_body, pyTruthyStr, pyUpper,
      pyMulOpt, h1, h2]
  · simp [calculate_quantities, calculate_quantities_body, pyTruthyStr, pyUpper, h1, h2]
  · simp only [pyUpper, Option.getD_some] at h2
    simp [calculate_quantities_optimized, calculate_quantities_optimized_body,
      pyTruthyStr, pyTruthyInt, pyUpper, pyMulOpt, h1, h2, h3, h4]
  · simp [calculate_quantities_optimized, calculate_quantities_optimized_body,
      pyTruthyStr, pyTruthyInt, pyUpper, h1, h2]
  · simp [calculate_quantities, calculate_quantities_body, pyTruthyStr, pyUpper]

/-- C3 witness: the amended conversion rules evaluated at concrete inputs,
one per branch. -/
theorem quantity_conversion_amended_witness :
    calculate_quantities 10 (some "CTN")
      (some { numerator := some 4, denominator := some 2 }) =
      (10 * 4, 10 * 4, if pyUpper (some "CTN") = "CTN" then some (10 : Int) else none) ∧
    calculate_quantities 7 (some "BOX") none =
      (7, 7, if pyUpper (some "BOX") = "CTN" then some (7 : Int) else none) ∧
    calculate_quantities_optimized 10 (some "CTN") (some 4) (some 2) =
      (10 * 4, 10 * 4, if pyUpper (some "CTN") = "CTN" then (10 : Int) else 0) ∧
    calculate_quantities_optimized 7 (some "BOX") none none =
      (7, 7, if pyUpper (some "BOX") = "CTN" then (7 : Int) else 0) ∧
    calculate_quantities 9 (some "PCS") none = (9, 9, none) :=
  ⟨quantity_conversion_amended.1 10 "CTN" 4 (some 2) (by decide) (by decide),
   quantity_conversion_amended.2.1 7 "BOX" (by decide) (by decide),
   quantity_conversion_amended.2.2.1 10 "CTN" 4 2 (by decide) (by decide)
     (by decide) (by decide),
   quantity_conversion_amended.2.2.2.1 7 "BOX" (by decide) (by decide),
   quantity_conversion_amended.2.2.2.2 9 none⟩

/-- C4: over the claimed input domain (raw_qty nonnegative, unit among PCS,
CTN, BOX, the empty string, or NULL, conversion present or absent) both
quantity transforms return normally: the explicit-exception model is
Except.ok of the pure result, because the catch-all handler converts any
internal TypeError into the safe default. -/
theorem quantity_transform_total (qty : Int) (uom : Option String)
    (cd : Option ConversionData) (num den : Option Int)
    (hq : 0 ≤ qty)
    (hu : uom ∈ [some "PCS", some "CTN", some "BOX", some "", none]) :
    calculate_quantities_exc qty uom cd =
      Except.ok (calculate_quantities qty uom cd) ∧
    calculate_quantities_optimized_exc qty uom num den =
      Except.ok (calculate_quantities_optimized qty uom num den) := by
  constructor
  · unfold calculate_quantities_exc calculate_quantities
    cases calculate_quantities_body qty uom cd <;> rfl
  · unfold calculate_quantities_optimized_exc calculate_quantities_optimized
    cases calculate_quantities_optimized_body qty uom num den <;> rfl

/-- C4 witness: totality evaluated at a concrete in-domain input whose
conversion carries a NULL numerator (the input that would raise without the
catch-all handler). -/
theorem quantity_transform_total_witness :
    (0 ≤ (10 : Int)) ∧
    (some "CTN") ∈ [some "PCS", some "CTN", some "BOX", some "", none] ∧
    (calculate_quantities_exc 10 (some "CTN")
        (some { numerator := none, denominator := some 2 }) =
      Except.ok (calculate_quantities 10 (some "CTN")
        (some { numerator := none, denominator := some 2 })) ∧
    calculate_quantities_optimized_exc 10 (some "CTN") none (some 2) =
      Except.ok (calculate_quantities_optimized 10 (some "CTN") none (some 2))) :=
  ⟨by decide, by decide,
   quantity_transform_total 10 (some "CTN")
     (some { numerator := none, denominator := some 2 }) none (some 2)
     (by decide) (by decide)⟩

/-- C5: the identity resolver looks the surrogate order id up by equality on
(faktur_id, faktur_date, customer_id); a NULL source customer_id matches
only target rows whose customer column is itself NULL (first conjunct); and
the batch loop writes exactly the rows whose parent resolves while counting
every unresolved row as failed — a missing parent skips that single row and
never blocks the rest of the batch or aborts it (second conjunct). -/
theorem identity_resolver_null_and_skip :
    (∀ (order_main : List OrderMainRec) (fid : Option String) (fdate : Option Int)
      (oid : Int),
      lookup_order_id order_main fid fdate none = some oid →
      ∃ t ∈ order_main, t.order_id = oid ∧ t.customer_id = none ∧
        sqlEq t.faktur_id fid = true ∧ sqlEq t.faktur_date fdate = true) ∧
    (∀ (order_main : List OrderMainRec) (batch : List AprilDetailRec),
      process_april_batch order_main batch =
        (batch.filterMap
          (fun rec => (resolveAprilRec order_main rec).map (aprilToDetailRow rec)),
         (batch.filter
          (fun rec => (resolveAprilRec order_main rec).isNone)).length)) := by
  constructor
  · intro order_main fid fdate oid h
    simp only [lookup_order_id, Option.map_eq_some'] at h
    obtain ⟨t, hfind, hoid⟩ := h
    refine ⟨t, List.mem_of_find?_eq_some hfind, hoid, ?_⟩
    have hp := List.find?_some hfind
    simp only [Bool.and_eq_true, beq_iff_eq] at hp
    exact ⟨hp.2, hp.1.1, hp.1.2⟩
  · intro order_main batch
    induction batch with
    | nil => rfl
    | cons rec rest ih =>
      simp only [process_april_batch, ih, List.filterMap_cons, List.filter_cons]
      cases h : resolveAprilRec order_main rec with
      | some oid => simp [h]
      | none => simp [h]

/-- C5 witness: a two-row batch against a one-row order_main whose stored
customer is NULL; the first row (NULL source customer) resolves through the
IS NULL branch, the second row has no parent and is counted as the single
failure while the first row is still written. -/
theorem identity_resolver_null_and_skip_witness :
    (∃ t ∈ [({ order_id := 7, faktur_id := some "F1", faktur_date := some 100, customer_id := none } : OrderMainRec)],
      t.order_id = 7 ∧ t.customer_id = none ∧
        sqlEq t.faktur_id (some "F1") = true ∧ sqlEq t.faktur_date (some 100) = true) ∧
    process_april_batch
      [{ order_id := 7, faktur_id := some "F1", faktur_date := some 100, customer_id := none }]
      [{ product_id := some "P1", line_id := some 1, faktur_id := some "F1", faktur_date := some 100, customer_id := none },
       { product_id := some "P2", line_id := some 2, faktur_id := some "F9", faktur_date := some 100, customer_id := some "C9" }] =
      ([{ product_id := some "P1", line_id := some 1, faktur_id := some "F1", faktur_date := some 100, customer_id := none },
        { product_id := some "P2", line_id := some 2, faktur_id := some "F9", faktur_date := some 100, customer_id := some "C9" }].filterMap
        (fun rec => (resolveAprilRec
          [{ order_id := 7, faktur_id := some "F1", faktur_date := some 100, customer_id := none }] rec).map
            (aprilToDetailRow rec)),
       1) := by
  constructor
  · exact identity_resolver_null_and_skip.1
      [{ order_id := 7, faktur_id := some "F1", faktur_date := some 100, customer_id := none }]
      (some "F1") (some 100) 7 (by rfl)
  · have h := identity_resolver_null_and_skip.2
      [{ order_id := 7, faktur_id := some "F1", faktur_date := some 100, customer_id := none }]
      [{ product_id := some "P1", line_id := some 1, faktur_id := some "F1", faktur_date := some 100, customer_id := none },
       { product_id := some "P2", line_id := some 2, faktur_id := some "F9", faktur_date := some 100, customer_id := some "C9" }]
    exact h

theorem process_outbound_data_spec (raw : List RawOutboundItem) :
    process_outbound_data raw =
      ((raw.filter fun item => pyTruthyStr item.product_id).map toOptimizedDetail,
       (raw.filter fun item => !(pyTruthyStr item.product_id)).length) := by
  induction raw with
  | nil => rfl
  | cons item rest ih =>
    simp only [process_outbound_data, ih, List.filter_cons]
    cases h : pyTruthyStr item.product_id <;> simp [h]

theorem prepare_batch_values_spec (l : List OptimizedDetail) :
    prepare_batch_values l =
      (l.filter fun v => pyTruthyStr v.product_id,
       (l.filter fun v => !(pyTruthyStr v.product_id)).length) := by
  induction l with
  | nil => rfl
  | cons item rest ih =>
    simp only [prepare_batch_values, ih, List.filter_cons]
    cases h : pyTruthyStr item.product_id <;> simp [h]

theorem insert_order_details_batch_spec (bs : Nat) (hbs : 0 < bs)
    (data : List OptimizedDetail) :
    insert_order_details_batch data bs =
      (data.filter (fun v => pyTruthyStr v.product_id),
       (data.filter (fun v => pyTruthyStr v.product_id)).length,
       (data.filter (fun v => !(pyTruthyStr v.product_id))).length) := by
  have main : ∀ (n : Nat) (data : List OptimizedDetail), data.length ≤ n →
      insert_order_details_batch data bs =
        (data.filter (fun v => pyTruthyStr v.product_id),
         (data.filter (fun v => pyTruthyStr v.product_id)).length,
         (data.filter (fun v => !(pyTruthyStr v.product_id))).length) := by
    intro n
    induction n with
    | zero =>
      intro data hlen
      have hnil : data = [] := List.eq_nil_of_length_eq_zero (Nat.le_zero.mp hlen)
      subst hnil
      unfold insert_order_details_batch
      simp
    | succ n ih =>
      intro data hlen
      by_cases hd : data = []
      · subst hd
        unfold insert_order_details_batch
        simp
      · have hcond : ¬(data = [] ∨ bs = 0) := by
          rintro (h1 | h2)
          · exact hd h1
          · omega
        have hdroplen : (data.drop bs).length ≤ n := by
          have h1 : 0 < data.length := List.length_pos.mpr hd
          simp only [List.length_drop]
          omega
        unfold insert_order_details_batch
        rw [dif_neg hcond]
        simp only [prepare_batch_values_spec, ih (data.drop bs) hdroplen, Prod.mk.injEq]
        refine ⟨?_, ?_, ?_⟩
        · rw [← List.filter_append, List.take_append_drop]
        · rw [← List.length_append, ← List.filter_append, List.take_append_drop]
        · rw [← List.length_append, ← List.filter_append, List.take_append_drop]
  exact main data.length data le_rfl

/-- C10: in the optimized fill path every outbound item whose resolved
product_id is NULL or empty is excluded from the write and counted as
skipped, every row actually written to order_detail_main carries a truthy
product_id, and the written rows are exactly the transforms of all
resolvable items — so skipping one item never prevents the others from
being written. -/
theorem optimized_fill_product_guard :
    ∀ (raw : List RawOutboundItem) (bs : Nat), 0 < bs →
      (∀ v ∈ (insert_order_details_batch (process_outbound_data raw).1 bs).1,
        pyTruthyStr v.product_id = true) ∧
      (insert_order_details_batch (process_outbound_data raw).1 bs).1 =
        (raw.filter fun item => pyTruthyStr item.product_id).map toOptimizedDetail ∧
      (process_outbound_data raw).2 =
        (raw.filter fun item => !(pyTruthyStr item.product_id)).length := by
  intro raw bs hbs
  rw [process_outbound_data_spec]
  rw [insert_order_details_batch_spec bs hbs]
  have hall : ∀ v ∈ ((raw.filter fun item => pyTruthyStr item.product_id).map
      toOptimizedDetail), pyTruthyStr v.product_id = true := by
    intro v hv
    obtain ⟨item, hitem, hveq⟩ := List.mem_map.mp hv
    have hq := (List.mem_filter.mp hitem).2
    have hpid : v.product_id = item.product_id := by
      rw [← hveq]
      rfl
    rw [hpid]
    exact hq
  have hfix : (((raw.filter fun item => pyTruthyStr item.product_id).map
      toOptimizedDetail).filter (fun v => pyTruthyStr v.product_id)) =
      ((raw.filter fun item => pyTruthyStr item.product_id).map toOptimizedDetail) :=
    List.filter_eq_self.mpr hall
  refine ⟨?_, ?_, rfl⟩
  · intro v hv
    simp only [hfix] at hv
    exact hall v hv
  · simp only [hfix]

/-- C10 witness: a two-item batch in which the second item's product does
not resolve: the first item is written with its truthy product id, the
second is counted as the single skip. -/
theorem optimized_fill_product_guard_witness :
    (∀ v ∈ (insert_order_details_batch (process_outbound_data
        [{ id := 1, product_id := some "P1", order_id := some 5, qty := 3, uom := some "PCS" },
         { id := 2, product_id := none, order_id := some 5, qty := 4, uom := some "PCS" }]).1 1000).1,
      pyTruthyStr v.product_id = true) ∧
    (insert_order_details_batch (process_outbound_data
        [{ id := 1, product_id := some "P1", order_id := some 5, qty := 3, uom := some "PCS" },
         { id := 2, product_id := none, order_id := some 5, qty := 4, uom := some "PCS" }]).1 1000).1 =
      (([{ id := 1, product_id := some "P1", order_id := some 5, qty := 3, uom := some "PCS" },
         { id := 2, product_id := none, order_id := some 5, qty := 4, uom := some "PCS" }] :
          List RawOutboundItem).filter
        fun item => pyTruthyStr item.product_id).map toOptimizedDetail ∧
    (process_outbound_data
        [{ id := 1, product_id := some "P1", order_id := some 5, qty := 3, uom := some "PCS" },
         { id := 2, product_id := none, order_id := some 5, qty := 4, uom := some "PCS" }]).2 =
      (([{ id := 1, product_id := some "P1", order_id := some 5, qty := 3, uom := some "PCS" },
         { id := 2, product_id := none, order_id := some 5, qty := 4, uom := some "PCS" }] :
          List RawOutboundItem).filter
        fun item => !(pyTruthyStr item.product_id)).length :=
  optimized_fill_product_guard
    [{ id := 1, product_id := some "P1", order_id := some 5, qty := 3, uom := some "PCS" },
     { id := 2, product_id := none, order_id := some 5, qty := 4, uom := some "PCS" }]
    1000 (by decide)

/-- C7: an invocation for warehouse 1 over the single day 10, on a source
holding one order (and one detail line each) for warehouse 1 and one for
warehouse 2, processes 2 detail rows — including the warehouse-2 row
re-parented onto target order 102 — although only 1 joined row satisfies
the warehouse filter (the filter the count query and the docstring
promise): the page SELECT omits the warehouse predicate, so the invocation
widens its scope beyond the given partition. -/
theorem detail_sync_widens_partition_scope :
    (copy_order_detail_data_upsert_rows
      [{ order_id := some 1, product_id := some "P1", line_id := some 1 },
       { order_id := some 2, product_id := some "P2", line_id := some 1 }]
      [{ order_id := 1, faktur_id := some "F1", faktur_date := some 10, warehouse_id := some 1 },
       { order_id := 2, faktur_id := some "F2", faktur_date := some 10, warehouse_id := some 2 }]
      [{ order_id := 101, faktur_id := some "F1" },
       { order_id := 102, faktur_id := some "F2" }]
      10 10 1 1000).map (fun r => r.order_id) = [some 101, some 102] ∧
    count_detail_records
      [{ order_id := some 1, product_id := some "P1", line_id := some 1 },
       { order_id := some 2, product_id := some "P2", line_id := some 1 }]
      [{ order_id := 1, faktur_id := some "F1", faktur_date := some 10, warehouse_id := some 1 },
       { order_id := 2, faktur_id := some "F2", faktur_date := some 10, warehouse_id := some 2 }]
      10 10 1 = 1 ∧
    ([({ order_id := 1, faktur_id := some "F1", faktur_date := some 10, warehouse_id := some 1 } : SrcOrder),
      { order_id := 2, faktur_id := some "F2", faktur_date := some 10, warehouse_id := some 2 }].filter
      (fun o => sqlEq o.warehouse_id (some 1))).map (fun o => o.faktur_id) = [some "F1"] := by
  refine ⟨by decide, by decide, by decide⟩

/-- C9 counterexample: a conversion row whose numerator and denominator are
NULL is emitted with numerator = denominator = 1, not the documented
numeric default 0: the numeric null-coalescing default of the conversion
fields is 1. -/
theorem payload_numeric_default_counterexample :
    ((build_json_payload
        [{ id := 1, document_reference := some "DO-1" }]
        [{ id := 10, outbound_document_id := 1 }]
        [{ id := 100, outbound_item_id := 10 }]).map
      (fun entry => entry.payload_data.items.map
        (fun it => it.conversion.map (fun c => (c.numerator, c.denominator))))) =
      [[[((1 : Int), (1 : Int))]]] ∧
    ((1 : Int), (1 : Int)) ≠ ((0 : Int), (0 : Int)) := by
  refine ⟨by decide, by decide⟩

/-- C9 amended: the assembler always returns a fully shaped document — a
document with no item rows gets items = [] (never null), an item with no
conversion rows gets conversion = []; string scalars null-coalesce to "",
qty and product_net_price null-coalesce to 0, but the conversion numerator
and denominator null-coalesce (and zero-coalesce) to 1, the conversion uom
is passed through uncoalesced, and image_url is always the constant
singleton [""] rather than an empty array. -/
theorem payload_shape_amended :
    (∀ (items : List OutItemRow) (convs : List OutConvRow) (d : OutDocRow),
      items.filter (fun it => it.outbound_document_id == d.id) = [] →
      (buildPayloadEntry items convs d).payload_data.items = []) ∧
    (∀ (items : List OutItemRow) (convs : List OutConvRow) (d : OutDocRow),
      (buildPayloadEntry items convs d).payload_data.items =
        (items.filter fun it => it.outbound_document_id == d.id).map
          (buildItemObj convs)) ∧
    (∀ (convs : List OutConvRow) (it : OutItemRow),
      convs.filter (fun c => c.outbound_item_id == it.id) = [] →
      (buildItemObj convs it).conversion = []) ∧
    (∀ (convs : List OutConvRow) (it : OutItemRow),
      (buildItemObj convs it).qty = pyNumCoalesce0 it.qty ∧
      (buildItemObj convs it).product_net_price = pyNumCoalesce0 it.product_net_price ∧
      (buildItemObj convs it).product_id = pyStrCoalesce it.product_id ∧
      (buildItemObj convs it).uom = pyStrCoalesce it.uom ∧
      (buildItemObj convs it).image_url = [""]) ∧
    (∀ (c : OutConvRow),
      buildConvObj c =
        { uom := c.uom
          numerator := pyNumCoalesce1 c.numerator
          denominator := pyNumCoalesce1 c.denominator }) ∧
    (∀ (documents : List OutDocRow) (items : List OutItemRow)
      (convs : List OutConvRow),
      build_json_payload documents items convs =
        documents.map (buildPayloadEntry items convs)) := by
  refine ⟨fun items convs d h => ?_, fun items convs d => rfl,
    fun convs it h => ?_, fun convs it => ⟨rfl, rfl, rfl, rfl, rfl⟩,
    fun c => rfl, fun documents items convs => rfl⟩
  · simp only [buildPayloadEntry, h, List.map_nil]
  · simp only [buildItemObj, h, List.map_nil]

/-- C9 witness: the amended shape evaluated on a document with no items and
an item with no conversions. -/
theorem payload_shape_amended_witness :
    (buildPayloadEntry [{ id := 10, outbound_document_id := 2 }] []
      { id := 1, document_reference := some "DO-1" }).payload_data.items = [] ∧
    (buildItemObj [{ id := 100, outbound_item_id := 55 }]
      { id := 10, outbound_document_id := 1 }).conversion = [] ∧
    (buildItemObj [] { id := 10, outbound_document_id := 1 }).qty =
      pyNumCoalesce0 none ∧
    build_json_payload [{ id := 1 }] [] [] =
      [buildPayloadEntry [] [] { id := 1 }] := by
  refine ⟨?_, ?_, ?_, ?_⟩
  · exact payload_shape_amended.1 [{ id := 10, outbound_document_id := 2 }] []
      { id := 1, document_reference := some "DO-1" } (by decide)
  · exact payload_shape_amended.2.2.1 [{ id := 100, outbound_item_id := 55 }]
      { id := 10, outbound_document_id := 1 } (by decide)
  · exact (payload_shape_amended.2.2.2.1 [] { id := 10, outbound_document_id := 1 }).1
  · exact payload_shape_amended.2.2.2.2.2 [{ id := 1 }] [] []

theorem pairsA_cons (o : AOrder) (os : List AOrder) (ds : List ADetail) (s e : Int) :
    pairsA (o :: os) ds s e =
      (if dateBetween o.faktur_date s e then
        (ds.filter fun d => d.order_id == o.order_id).map (fun d => (o, d))
      else []) ++ pairsA os ds s e := by
  simp [pairsA, List.flatMap_cons]

theorem pairsB_cons (o : BDoc) (os : List BDoc) (its : List BItem) (s e : Int) :
    pairsB (o :: os) its s e =
      (if dateBetween o.faktur_date s e then
        (its.filter fun it => it.document_id == o.id).map (fun it => (o, it))
      else []) ++ pairsB os its s e := by
  simp [pairsB, List.flatMap_cons]

theorem pairsB_mirror (orders : List AOrder) (ds : List ADetail)
    (wh cl : Option String) (s e : Int) :
    pairsB (orders.map (mirrorDoc wh cl)) (ds.map mirrorItem) s e =
      (pairsA orders ds s e).map (fun p => (mirrorDoc wh cl p.1, mirrorItem p.2)) := by
  induction orders with
  | nil => rfl
  | cons o os ih =>
    rw [List.map_cons, pairsB_cons, pairsA_cons, List.map_append, ih]
    congr 1
    by_cases hdt : dateBetween o.faktur_date s e
    · have hdt2 : dateBetween (mirrorDoc wh cl o).faktur_date s e = true := hdt
      rw [if_pos hdt2, if_pos hdt]
      rw [List.filter_map, List.map_map, List.map_map]
      rfl
    · have hdt2 : ¬(dateBetween (mirrorDoc wh cl o).faktur_date s e = true) := hdt
      rw [if_neg hdt2, if_neg hdt]
      rfl

theorem db_b_count_mirror (orders : List AOrder) (ds : List ADetail)
    (wh cl : Option String) (s e : Int) (ref : Option String) :
    db_b_count (orders.map (mirrorDoc wh cl)) (ds.map mirrorItem) s e ref =
      db_a_count orders ds s e ref := by
  unfold db_b_count db_a_count
  rw [pairsB_mirror, List.countP_map]
  rfl

theorem countP_map_pair (o : AOrder) (l : List ADetail) (ref : Option String) :
    (l.map (fun d => (o, d))).countP
        (fun p : AOrder × ADetail => p.1.do_number == ref) =
      if (o.do_number == ref) = true then l.length else 0 := by
  induction l with
  | nil => by_cases h : (o.do_number == ref) = true <;> simp [h]
  | cons d l2 ih =>
    by_cases h : (o.do_number == ref) = true <;>
      simp [List.countP_cons, ih, h]

theorem length_filter_insert (q : ADetail → Bool) (xs ys : List ADetail) (dd : ADetail) :
    (List.filter q (xs ++ dd :: ys)).length =
      (List.filter q (xs ++ ys)).length + (if q dd = true then 1 else 0) := by
  rw [List.filter_append, List.filter_append, List.filter_cons]
  by_cases h : q dd = true
  · rw [if_pos h, if_pos h]
    simp only [List.length_append, List.length_cons]
    omega
  · rw [if_neg h, if_neg h]
    simp [List.length_append]

theorem db_a_count_insert (orders : List AOrder) (xs ys : List ADetail)
    (dd : ADetail) (s e : Int) (ref : Option String) :
    db_a_count orders (xs ++ dd :: ys) s e ref =
      db_a_count orders (xs ++ ys) s e ref +
      (orders.filter (fun o => dd.order_id == o.order_id)).countP
        (fun o => dateBetween o.faktur_date s e && (o.do_number == ref)) := by
  induction orders with
  | nil => rfl
  | cons o os ih =>
    simp only [db_a_count] at ih ⊢
    rw [pairsA_cons, pairsA_cons, List.countP_append, List.countP_append, ih,
      List.filter_cons]
    by_cases hdt : dateBetween o.faktur_date s e
    · rw [if_pos hdt, if_pos hdt, countP_map_pair, countP_map_pair]
      by_cases hq : (dd.order_id == o.order_id) = true
      · rw [if_pos hq, List.countP_cons]
        have hqb : ((fun d : ADetail => d.order_id == o.order_id) dd) = true := hq
        rw [length_filter_insert, if_pos hqb]
        by_cases href : (o.do_number == ref) = true
        · have hp2 : (dateBetween o.faktur_date s e && (o.do_number == ref)) = true := by
            rw [href]
            simp [hdt]
          rw [if_pos href, if_pos href, if_pos hp2]
          omega
        · have hp2 : ¬((dateBetween o.faktur_date s e && (o.do_number == ref)) = true) := by
            simp [href]
          rw [if_neg href, if_neg href, if_neg hp2]
          omega
      · have hqb : ¬(((fun d : ADetail => d.order_id == o.order_id) dd) = true) := hq
        rw [if_neg hq, length_filter_insert, if_neg hqb]
        by_cases href : (o.do_number == ref) = true
        · rw [if_pos href, if_pos href]
          omega
        · rw [if_neg href, if_neg href]
          omega
    · rw [if_neg hdt, if_neg hdt]
      by_cases hq : (dd.order_id == o.order_id) = true
      · rw [if_pos hq, List.countP_cons]
        have hp2 : ¬((dateBetween o.faktur_date s e && (o.do_number == ref)) = true) := by
          simp [hdt]
        rw [if_neg hp2]
        omega
      · rw [if_neg hq]
        omega

theorem filterMap_eq_singleton_of {α β : Type} (l : List α) (a : α)
    (f : α → Option β) (y : β) (hn : l.Nodup) (ha : a ∈ l) (hf : f a = some y)
    (hnone : ∀ x ∈ l, x ≠ a → f x = none) :
    l.filterMap f = [y] := by
  induction l with
  | nil => cases ha
  | cons x xs ih =>
    rw [List.filterMap_cons]
    rcases List.mem_cons.mp ha with heq | hmem
    · have hfx : f x = some y := heq ▸ hf
      simp only [hfx]
      have hnil : xs.filterMap f = [] := by
        rw [List.filterMap_eq_nil_iff]
        intro z hz
        have hzne : z ≠ a := fun hza => (List.nodup_cons.mp hn).1 (heq ▸ hza ▸ hz)
        exact hnone z (List.mem_cons_of_mem _ hz) hzne
      rw [hnil]
    · have hxa : x ≠ a := fun h => (List.nodup_cons.mp hn).1 (h ▸ hmem)
      rw [hnone x (List.mem_cons_self x xs) hxa]
      show List.filterMap f xs = [y]
      exact ih (List.nodup_cons.mp hn).2 hmem
        (fun z hz hzne => hnone z (List.mem_cons_of_mem _ hz) hzne)

theorem mem_pairsA {orders : List AOrder} {ds : List ADetail} {s e : Int}
    {o : AOrder} {d : ADetail} (ho : o ∈ orders)
    (hdt : dateBetween o.faktur_date s e = true) (hd : d ∈ ds)
    (hq : (d.order_id == o.order_id) = true) :
    (o, d) ∈ pairsA orders ds s e := by
  unfold pairsA
  rw [List.mem_flatMap]
  refine ⟨o, ho, ?_⟩
  rw [if_pos hdt]
  exact List.mem_map.mpr ⟨d, List.mem_filter.mpr ⟨hd, hq⟩, rfl⟩

/-- C8: reconciliation of two identically seeded stores reports zero
discrepancies; removing one OrderLine row (an item of an order that exists
exactly once and lies in the date range) from the Target side and
re-running reports exactly one DiscrepancyResult, carrying that order's
business key, with target count = source count - 1 and
discrepancy_count = 1. -/
theorem reconcile_identical_and_single_removal :
    (∀ (orders : List AOrder) (details : List ADetail) (wh cl : Option String)
      (s e : Int),
      compare_data_by_date_range orders details
        (orders.map (mirrorDoc wh cl)) (details.map mirrorItem) s e = []) ∧
    (∀ (orders : List AOrder) (xs ys : List ADetail) (dd : ADetail) (o0 : AOrder)
      (wh cl : Option String) (s e : Int),
      orders.filter (fun o => dd.order_id == o.order_id) = [o0] →
      dateBetween o0.faktur_date s e = true →
      ∃ rec : DiscrepancyResult,
        compare_data_by_date_range orders (xs ++ dd :: ys)
          (orders.map (mirrorDoc wh cl)) ((xs ++ ys).map mirrorItem) s e = [rec] ∧
        rec.do_number = o0.do_number ∧
        rec.db_a_count = db_a_count orders (xs ++ dd :: ys) s e o0.do_number ∧
        1 ≤ rec.db_a_count ∧
        rec.db_b_count = rec.db_a_count - 1 ∧
        rec.discrepancy_count = 1) := by
  constructor
  · intro orders details wh cl s e
    simp only [compare_data_by_date_range]
    rw [List.filterMap_eq_nil_iff]
    intro ref href
    have hb := db_b_count_mirror orders details wh cl s e ref
    simp [hb]
  · intro orders xs ys dd o0 wh cl s e h1 h2
    have ho0mem : o0 ∈ orders.filter (fun o => dd.order_id == o.order_id) := by
      rw [h1]
      exact List.mem_cons_self o0 []
    have ho0 := List.mem_filter.mp ho0mem
    have hcnt : ∀ ref, db_a_count orders (xs ++ dd :: ys) s e ref =
        db_a_count orders (xs ++ ys) s e ref +
        (if o0.do_number = ref then 1 else 0) := by
      intro ref
      rw [db_a_count_insert, h1]
      simp [List.countP_cons, h2, beq_iff_eq]
    have hB : ∀ ref, db_b_count (orders.map (mirrorDoc wh cl))
        ((xs ++ ys).map mirrorItem) s e ref =
        db_a_count orders (xs ++ ys) s e ref :=
      fun ref => db_b_count_mirror orders (xs ++ ys) wh cl s e ref
    have hpair : (o0, dd) ∈ pairsA orders (xs ++ dd :: ys) s e :=
      mem_pairsA ho0.1 h2 (by simp) ho0.2
    have hne : db_a_count orders (xs ++ dd :: ys) s e o0.do_number ≠
        db_b_count (orders.map (mirrorDoc wh cl))
          ((xs ++ ys).map mirrorItem) s e o0.do_number := by
      rw [hB, hcnt]
      simp
    refine ⟨{ do_number := o0.do_number
              db_a_count := db_a_count orders (xs ++ dd :: ys) s e o0.do_number
              db_b_count := db_b_count (orders.map (mirrorDoc wh cl))
                ((xs ++ ys).map mirrorItem) s e o0.do_number
              discrepancy_count := Nat.dist
                (db_a_count orders (xs ++ dd :: ys) s e o0.do_number)
                (db_b_count (orders.map (mirrorDoc wh cl))
                  ((xs ++ ys).map mirrorItem) s e o0.do_number)
              warehouse_id := ((orders.map (mirrorDoc wh cl)).find?
                (fun o => o.outbound_reference == o0.do_number)).bind
                  (fun o => o.warehouse_id)
              client_id := ((orders.map (mirrorDoc wh cl)).find?
                (fun o => o.outbound_reference == o0.do_number)).bind
                  (fun o => o.client_id) },
      ?_, rfl, rfl, ?_, ?_, ?_⟩
    · simp only [compare_data_by_date_range]
      apply filterMap_eq_singleton_of _ o0.do_number _ _ (List.nodup_dedup _)
      · rw [List.mem_dedup, List.mem_append]
        exact Or.inl (List.mem_map.mpr ⟨(o0, dd), hpair, rfl⟩)
      · simp only [if_pos hne]
      · intro refx hrefx hnex
        have heq : db_a_count orders (xs ++ dd :: ys) s e refx =
            db_b_count (orders.map (mirrorDoc wh cl))
              ((xs ++ ys).map mirrorItem) s e refx := by
          rw [hB, hcnt, if_neg (fun h => hnex h.symm)]
          omega
        simp [heq]
    · rw [hcnt]
      simp
    · rw [hB, hcnt]
      simp
    · rw [hB, hcnt]
      simp [Nat.dist]

/-- C8 witness: one order with business key DO-1 on day 10 holding two
lines; the mirrored target misses the second line; reconciliation over
[10, 10] reports exactly one discrepancy with counts 2 and 1. -/
theorem reconcile_identical_and_single_removal_witness :
    ∃ rec : DiscrepancyResult,
      compare_data_by_date_range
        [{ order_id := 1, do_number := some "DO-1", faktur_date := some 10 }]
        ([{ order_detail_id := 11, order_id := 1 }] ++
          ({ order_detail_id := 12, order_id := 1 } : ADetail) :: [])
        ([({ order_id := 1, do_number := some "DO-1", faktur_date := some 10 } : AOrder)].map
          (mirrorDoc (some "W1") (some "C1")))
        (([({ order_detail_id := 11, order_id := 1 } : ADetail)] ++ []).map mirrorItem) 10 10 = [rec] ∧
      rec.do_number = some "DO-1" ∧
      rec.db_a_count = db_a_count
        [{ order_id := 1, do_number := some "DO-1", faktur_date := some 10 }]
        ([{ order_detail_id := 11, order_id := 1 }] ++
          ({ order_detail_id := 12, order_id := 1 } : ADetail) :: []) 10 10 (some "DO-1") ∧
      1 ≤ rec.db_a_count ∧
      rec.db_b_count = rec.db_a_count - 1 ∧
      rec.discrepancy_count = 1 := by
  have h := reconcile_identical_and_single_removal.2
    [{ order_id := 1, do_number := some "DO-1", faktur_date := some 10 }]
    [{ order_detail_id := 11, order_id := 1 }] []
    { order_detail_id := 12, order_id := 1 }
    { order_id := 1, do_number := some "DO-1", faktur_date := some 10 }
    (some "W1") (some "C1") 10 10 (by decide) (by decide)
  exact h

end ArmosCleaning
